import Mathlib

/-!
# JobTracker — verification of the Occupational Data Integration Pipeline

Shallow embedding of the core of the JobTracker repository
(`src/data_transformer.py`, `src/typesense_loader.py`, `src/pipeline.py`)
and proofs about it.

Python values that matter to the transformer (cell values of a tabular
row) are modelled by `PyVal`; Python `float` arithmetic on the small exact
decimals involved here is modelled by `ℚ`; a Python dict used as a
document is modelled by an association list `List (String × DocVal)`.
-/

namespace JobTracker

/-- A Python value as seen by the transformer's coercion helpers:
`None`, float NaN, a string, or an exact number (int or float). -/
inductive PyVal where
  | none
  | nan
  | str (s : String)
  | num (q : ℚ)
deriving DecidableEq, Repr

/-- `pd.isna` on a scalar: true exactly for `None` and NaN. -/
def pdIsna : PyVal → Bool
  | .none => true
  | .nan => true
  | _ => false

/-- Python `str.strip()` on a list of characters: drop leading and
trailing whitespace. -/
def pyStrip (l : List Char) : List Char :=
  ((l.dropWhile Char.isWhitespace).reverse.dropWhile Char.isWhitespace).reverse

/-- Digits of a numeral, most significant first, to a natural number. -/
def digitsToNat (l : List Char) : Nat :=
  l.foldl (fun acc c => acc * 10 + (c.toNat - '0'.toNat)) 0

/-- Unsigned decimal literal: `123`, `123.45`, `123.`, `.45`.
Returns `none` when the characters do not form such a literal. -/
def parseUnsigned (l : List Char) : Option ℚ :=
  let intPart := l.takeWhile Char.isDigit
  let rest := l.dropWhile Char.isDigit
  match rest with
  | [] => if intPart.isEmpty then Option.none else some (digitsToNat intPart)
  | '.' :: frac =>
      if frac.all Char.isDigit ∧ ¬(intPart.isEmpty ∧ frac.isEmpty) then
        some ((digitsToNat intPart : ℚ) + (digitsToNat frac : ℚ) / (10 : ℚ) ^ frac.length)
      else Option.none
  | _ => Option.none

/-- Python `float(s)` on a plain decimal string: optional surrounding
whitespace, optional sign, decimal digits with an optional point.
`none` models the `ValueError` raised on anything else. -/
def pyParseFloat (s : String) : Option ℚ :=
  match pyStrip s.toList with
  | '-' :: rest => (parseUnsigned rest).map (fun q => -q)
  | '+' :: rest => parseUnsigned rest
  | rest => parseUnsigned rest

/-- Whether a string is one of the BLS small-sample suppression markers. -/
def isSuppressionMarker (s : String) : Bool :=
  s = "*" || s = "**" || s = "#"

/-- `DataTransformer._safe_float`: `None`/NaN and the suppression markers
`*`, `**`, `#` coerce to the default; a parseable number converts; any
other string (a `ValueError` in Python) also falls back to the default. -/
def safe_float (value : PyVal) (default : ℚ) : ℚ :=
  match value with
  | .none => default
  | .nan => default
  | .str s =>
      if isSuppressionMarker s then default
      else match pyParseFloat s with
        | some q => q
        | Option.none => default
  | .num q => q

/-- Truncation toward zero, the behaviour of Python `int(x)` on a float. -/
def truncToward0 (q : ℚ) : ℤ :=
  if 0 ≤ q then ⌊q⌋ else ⌈q⌉

/-- `DataTransformer._safe_int`: like `_safe_float` but the parsed value
goes through `int(float(value))`, truncating toward zero. -/
def safe_int (value : PyVal) (default : ℤ) : ℤ :=
  match value with
  | .none => default
  | .nan => default
  | .str s =>
      if isSuppressionMarker s then default
      else match pyParseFloat s with
        | some q => truncToward0 q
        | Option.none => default
  | .num q => truncToward0 q

/-- The character filter of `_normalize_soc_code`:
`.replace("-", "").replace(".", "")` removes every hyphen and dot. -/
def socFilter (l : List Char) : List Char :=
  l.filter (fun c => !(c = '-' || c = '.'))

/-- `DataTransformer._normalize_soc_code` on the character list of the
input: strip hyphens, dots and surrounding whitespace; if at least 6
characters remain, return the first two, a hyphen, and the next four;
otherwise return the input unchanged. -/
def normalizeSocList (l : List Char) : List Char :=
  let soc := pyStrip (socFilter l)
  if 6 ≤ soc.length then soc.take 2 ++ '-' :: (soc.drop 2).take 4 else l

/-- `DataTransformer._normalize_soc_code`. -/
def normalize_soc_code (s : String) : String :=
  String.mk (normalizeSocList s.toList)

/-- Rounding to the nearest integer with ties to the even integer, the
behaviour of Python `round` on the exact values arising here. -/
def roundHalfEven (q : ℚ) : ℤ :=
  if q - ⌊q⌋ < 1/2 then ⌊q⌋
  else if 1/2 < q - ⌊q⌋ then ⌊q⌋ + 1
  else if 2 ∣ ⌊q⌋ then ⌊q⌋ else ⌊q⌋ + 1

/-- Python `round(x, 2)`. -/
def round2 (q : ℚ) : ℚ := (roundHalfEven (q * 100) : ℚ) / 100

/-- A skill, knowledge or ability item of a competency profile — the
`Skill` dataclass of `onet_client.py`. A level that was never measured is
`none`. -/
structure SkillItem where
  id : String
  name : String
  description : String
  importance : ℚ
  level : Option ℚ
  category : String
deriving DecidableEq, Repr

/-- The `TechnologySkill` dataclass of `onet_client.py`. -/
structure TechSkillItem where
  name : String
  hot_technology : Bool
  example_uses : List String
deriving DecidableEq, Repr

/-- The `Task` dataclass of `onet_client.py`. -/
structure TaskItem where
  id : String
  description : String
  importance : ℚ
deriving DecidableEq, Repr

/-- One bucket of the education distribution
(an element of `education["level"]`). -/
structure EducationLevel where
  name : String
  percentage : ℚ
deriving DecidableEq, Repr

/-- The `OccupationDetails` dataclass of `onet_client.py`, restricted to
the fields the transformer and the skill aggregation read. The education
dict is modelled by its `"level"` list. -/
structure OccupationDetails where
  code : String
  title : String
  description : String
  job_zone : ℤ
  skills : List SkillItem
  knowledge : List SkillItem
  abilities : List SkillItem
  technology_skills : List TechSkillItem
  tasks : List TaskItem
  education : Option (List EducationLevel)
  bright_outlook : Bool
deriving DecidableEq, Repr

/-- One entry of a skill document's `related_occupations` list as built
by `_build_skills_collection`: occupation code and title plus the item's
importance and (possibly absent) level for that occupation. -/
structure RelatedOccupation where
  code : String
  title : String
  importance : ℚ
  level : Option ℚ
deriving DecidableEq, Repr

/-- Python truthiness of the stored `level` value: `None` and `0.0` are
falsy. -/
def levelTruthy : Option ℚ → Bool
  | Option.none => false
  | some q => decide (q ≠ 0)

/-- `DataTransformer._categorize_skill`: bucket by the first
dot-separated segment of the skill id. -/
def categorize_skill (skill_id : String) : String :=
  if skill_id = "" ∨ ¬ skill_id.toList.contains '.' then "General"
  else
    let seg0 := String.mk (skill_id.toList.takeWhile (fun c => c ≠ '.'))
    if seg0 = "1" then "Worker Characteristics"
    else if seg0 = "2" then "Worker Requirements"
    else if seg0 = "3" then "Experience Requirements"
    else if seg0 = "4" then "Occupational Requirements"
    else "General"

/-- The document built by `DataTransformer.transform_skill_document`. -/
structure SkillAggregateDocument where
  id : String
  skill_id : String
  skill_name : String
  skill_type : String
  description : String
  category : String
  related_occupations : List RelatedOccupation
  occupation_count : ℕ
  avg_importance : ℚ
  avg_level : ℚ
  last_updated : ℤ
deriving DecidableEq, Repr

/-- `DataTransformer.transform_skill_document`. The Python truthiness
filters `if occ.get("importance")` / `if occ.get("level")` keep exactly
the entries whose value is recorded and non-zero; the stored list is
truncated to 50 while `occupation_count` is the untruncated length; the
averages are rounded to two decimals. `now` stands for
`datetime.now().timestamp()`. -/
def transform_skill_document (skill_id skill_name skill_type description : String)
    (related_occupations : List RelatedOccupation) (now : ℤ) : SkillAggregateDocument :=
  let importances :=
    (related_occupations.filter (fun o => decide (o.importance ≠ 0))).map (fun o => o.importance)
  let levels :=
    (related_occupations.filter (fun o => levelTruthy o.level)).map (fun o => o.level.getD 0)
  let avg_importance := if importances.isEmpty then 0 else importances.sum / importances.length
  let avg_level := if levels.isEmpty then 0 else levels.sum / levels.length
  { id := skill_id
    skill_id := skill_id
    skill_name := skill_name
    skill_type := skill_type
    description := description
    category := categorize_skill skill_id
    related_occupations := related_occupations.take 50
    occupation_count := related_occupations.length
    avg_importance := round2 avg_importance
    avg_level := round2 avg_level
    last_updated := now }

/-- The record appended by `_build_skills_collection` for one matching
item of one occupation. -/
def mkRelated (code : String) (title : String) (item : SkillItem) : RelatedOccupation :=
  { code := code, title := title, importance := item.importance, level := item.level }

/-- The entries appended to the bucket of skill id `sid` while
`_build_skills_collection` processes one occupation: its matching skills,
then knowledge areas, then abilities, in list order. -/
def bucketEntries (sid : String) (code : String) (d : OccupationDetails) :
    List RelatedOccupation :=
  (d.skills.filter (fun item => item.id = sid)).map (mkRelated code d.title) ++
    (d.knowledge.filter (fun item => item.id = sid)).map (mkRelated code d.title) ++
    (d.abilities.filter (fun item => item.id = sid)).map (mkRelated code d.title)

/-- The bucket for skill id `sid` after the aggregation fold of
`_build_skills_collection` over the profile map (a dict modelled as an
insertion-ordered list of code/details pairs). -/
def skillBucket (sid : String) : List (String × OccupationDetails) → List RelatedOccupation
  | [] => []
  | (code, d) :: rest => bucketEntries sid code d ++ skillBucket sid rest

/-- How many items with id `sid` one occupation's profile carries across
its skills, knowledge and abilities lists. -/
def matchCount (sid : String) (d : OccupationDetails) : ℕ :=
  (d.skills.filter (fun item => item.id = sid)).length +
    (d.knowledge.filter (fun item => item.id = sid)).length +
    (d.abilities.filter (fun item => item.id = sid)).length

/-- The dictionary built by `DataTransformer._transform_skill`:
the O*NET `level` is defaulted to 0.0 when absent (`skill.level or 0.0`). -/
structure SkillField where
  id : String
  name : String
  description : String
  importance : ℚ
  level : ℚ
  category : String
deriving DecidableEq, Repr

/-- A value stored in an occupation document. -/
inductive DocVal where
  | vstr (s : String)
  | vint (n : ℤ)
  | vnum (q : ℚ)
  | vbool (b : Bool)
  | vskillArr (l : List SkillField)
  | vstrArr (l : List String)
deriving DecidableEq, Repr

/-- `DataTransformer._transform_skill`. -/
def transform_skill (skill : SkillItem) : SkillField :=
  { id := skill.id, name := skill.name, description := skill.description,
    importance := skill.importance, level := skill.level.getD 0, category := skill.category }

/-- `dict.get(key)` of a document modelled as an association list. -/
def dictGet (doc : List (String × DocVal)) (key : String) : Option DocVal :=
  (doc.find? (fun kv => kv.1 = key)).map (fun kv => kv.2)

/-- `dict.update`: overwrite existing keys in place, append new keys in
order. -/
def dictUpdate (doc upd : List (String × DocVal)) : List (String × DocVal) :=
  upd.foldl
    (fun acc kv =>
      if acc.any (fun p => p.1 = kv.1) then acc.map (fun p => if p.1 = kv.1 then kv else p)
      else acc ++ [kv])
    doc

/-- `row.get(key, default)` for the string-valued columns of a tabular
row (the BLS rows carry strings in the code/title/group columns). -/
def getStr (v : PyVal) (default : String) : String :=
  match v with
  | .str s => s
  | _ => default

/-- The stable selection `sorted(levels, key=percentage, reverse=True)[0]`:
the earliest entry with the maximum percentage. -/
def pickTopLevel : List EducationLevel → Option EducationLevel
  | [] => Option.none
  | e :: rest =>
      match pickTopLevel rest with
      | Option.none => some e
      | some b => if b.percentage > e.percentage then some b else some e

/-- `DataTransformer._extract_education_level`. -/
def extract_education_level (education : Option (List EducationLevel)) : String :=
  match education with
  | Option.none => "Not specified"
  | some levels =>
      match pickTopLevel levels with
      | Option.none => "Not specified"
      | some e => e.name

/-- `DataTransformer._extract_experience`: the five-entry job-zone
lookup table. -/
def extract_experience (d : OccupationDetails) : String :=
  if d.job_zone = 1 then "None required"
  else if d.job_zone = 2 then "Some prior experience helpful"
  else if d.job_zone = 3 then "Previous work experience required"
  else if d.job_zone = 4 then "Considerable work experience"
  else if d.job_zone = 5 then "Extensive work experience required"
  else "Not specified"

/-- `DataTransformer._transform_onet_data`: the fields merged into an
occupation document when a competency profile is available. -/
def transform_onet_data (d : OccupationDetails) : List (String × DocVal) :=
  [("description", .vstr d.description),
   ("job_zone", .vint d.job_zone),
   ("bright_outlook", .vbool d.bright_outlook),
   ("skills", .vskillArr (d.skills.map transform_skill)),
   ("knowledge_areas", .vskillArr (d.knowledge.map transform_skill)),
   ("abilities", .vskillArr (d.abilities.map transform_skill)),
   ("technology_skills", .vstrArr (d.technology_skills.map (fun t => t.name))),
   ("hot_technologies",
    .vstrArr ((d.technology_skills.filter (fun t => t.hot_technology)).map (fun t => t.name))),
   ("tasks", .vstrArr ((d.tasks.take 20).map (fun t => t.description))),
   ("skill_names", .vstrArr (d.skills.map (fun s => s.name))),
   ("knowledge_names", .vstrArr (d.knowledge.map (fun k => k.name))),
   ("ability_names", .vstrArr (d.abilities.map (fun a => a.name))),
   ("education_level", .vstr (extract_education_level d.education)),
   ("experience_required", .vstr (extract_experience d))]

/-- `DataTransformer.transform_occupation`: build the wage/employment
document from one tabular row, then merge the competency fields only when
a profile is supplied. `now` stands for `datetime.now().timestamp()`. -/
def transform_occupation (bls_data : String → PyVal) (onet_data : Option OccupationDetails)
    (now : ℤ) : List (String × DocVal) :=
  let soc_code := normalize_soc_code (getStr (bls_data "OCC_CODE") "")
  let onet_code := soc_code ++ ".00"
  let doc : List (String × DocVal) :=
    [("id", .vstr soc_code),
     ("soc_code", .vstr soc_code),
     ("onet_code", .vstr onet_code),
     ("title", .vstr (getStr (bls_data "OCC_TITLE") "")),
     ("occupation_group", .vstr (getStr (bls_data "O_GROUP") "detailed")),
     ("national_employment", .vint (safe_int (bls_data "TOT_EMP") 0)),
     ("national_mean_wage", .vnum (safe_float (bls_data "A_MEAN") 0)),
     ("national_median_wage", .vnum (safe_float (bls_data "A_MEDIAN") 0)),
     ("hourly_mean_wage", .vnum (safe_float (bls_data "H_MEAN") 0)),
     ("hourly_median_wage", .vnum (safe_float (bls_data "H_MEDIAN") 0)),
     ("wage_pct_10", .vnum (safe_float (bls_data "A_PCT10") 0)),
     ("wage_pct_25", .vnum (safe_float (bls_data "A_PCT25") 0)),
     ("wage_pct_75", .vnum (safe_float (bls_data "A_PCT75") 0)),
     ("wage_pct_90", .vnum (safe_float (bls_data "A_PCT90") 0)),
     ("hourly_pct_10", .vnum (safe_float (bls_data "H_PCT10") 0)),
     ("hourly_pct_25", .vnum (safe_float (bls_data "H_PCT25") 0)),
     ("hourly_pct_75", .vnum (safe_float (bls_data "H_PCT75") 0)),
     ("hourly_pct_90", .vnum (safe_float (bls_data "H_PCT90") 0)),
     ("last_updated", .vint now)]
  match onet_data with
  | Option.none => doc
  | some d => dictUpdate doc (transform_onet_data d)

/-! ### Structural lemmas about the normalizer -/

lemma pyStrip_sublist (l : List Char) : List.Sublist (pyStrip l) l := by
  have h1 : List.Sublist (l.dropWhile Char.isWhitespace) l := (List.dropWhile_suffix _).sublist
  have h2 : List.Sublist ((l.dropWhile Char.isWhitespace).reverse.dropWhile Char.isWhitespace)
      (l.dropWhile Char.isWhitespace).reverse := (List.dropWhile_suffix _).sublist
  have h3 := h2.reverse
  rw [List.reverse_reverse] at h3
  exact h3.trans h1

lemma normalizeSocList_eq (l : List Char) :
    normalizeSocList l =
      if 6 ≤ (pyStrip (socFilter l)).length then
        (pyStrip (socFilter l)).take 2 ++ '-' :: ((pyStrip (socFilter l)).drop 2).take 4
      else l := rfl

lemma soc_no_sep (l : List Char) :
    ∀ c ∈ pyStrip (socFilter l), (!(c = '-' || c = '.')) = true := by
  intro c hc
  have hmem : c ∈ socFilter l := (pyStrip_sublist (socFilter l)).subset hc
  exact (List.mem_filter.mp hmem).2

lemma normalizeSocList_idem (l : List Char) :
    normalizeSocList (normalizeSocList l) = normalizeSocList l := by
  by_cases h6 : 6 ≤ (pyStrip (socFilter l)).length
  case neg =>
    have h : normalizeSocList l = l := by rw [normalizeSocList_eq l, if_neg h6]
    rw [h]
    exact h
  case pos =>
    set soc := pyStrip (socFilter l) with hsoc
    set a := soc.take 2 with ha
    set b := (soc.drop 2).take 4 with hb
    have hy : normalizeSocList l = a ++ '-' :: b := by rw [normalizeSocList_eq l, if_pos h6]
    have hla : a.length = 2 := by
      rw [ha, List.length_take]; omega
    have hlb : b.length = 4 := by
      rw [hb, List.length_take, List.length_drop]; omega
    have hfa : socFilter a = a := by
      apply List.filter_eq_self.mpr
      intro c hc
      exact soc_no_sep l c (List.take_subset 2 soc hc)
    have hfb : socFilter b = b := by
      apply List.filter_eq_self.mpr
      intro c hc
      exact soc_no_sep l c (List.drop_subset 2 soc (List.take_subset 4 _ hc))
    have hfy : socFilter (a ++ '-' :: b) = a ++ b := by
      rw [socFilter, List.filter_append]
      have hcons : List.filter (fun c => !(c = '-' || c = '.')) ('-' :: b) = socFilter b := by
        simp [socFilter, List.filter_cons]
      rw [hcons, hfb]
      rw [socFilter] at hfa
      rw [hfa]
    have hlab : (a ++ b).length = 6 := by simp [hla, hlb]
    rw [hy]
    rw [normalizeSocList_eq (a ++ '-' :: b), hfy]
    by_cases heq : pyStrip (a ++ b) = a ++ b
    case pos =>
      rw [heq]
      rw [if_pos (by omega)]
      have htk : (a ++ b).take 2 = a := by
        rw [List.take_append_of_le_length (by omega), ha, List.take_take]
        simp
      have hd : (a ++ b).drop 2 = b := by
        rw [List.drop_append_eq_append_drop, hla, List.drop_eq_nil_of_le hla.le]
        simp
      rw [htk, hd, hb, List.take_take]
      simp
    case neg =>
      have hsub : List.Sublist (pyStrip (a ++ b)) (a ++ b) := pyStrip_sublist _
      have hlt : (pyStrip (a ++ b)).length < 6 := by
        have hle := hsub.length_le
        rcases Nat.lt_or_ge (pyStrip (a ++ b)).length (a ++ b).length with h | h
        · omega
        · exact absurd (hsub.eq_of_length (by omega)) heq
      rw [if_neg (by omega)]

end JobTracker

namespace JobTracker

/-! ### Claim theorems for the code normalizer and coercions -/

/-- C4 counterexample: `"abcdef"` keeps 6 characters but zero digit
characters after stripping, yet `_normalize_soc_code` rewrites it to
`"ab-cdef"` instead of returning it unchanged — the claimed "at least 6
digit characters" condition is not what the code tests. -/
theorem c4_normalize_digit_condition_counterexample :
    ((pyStrip (socFilter "abcdef".toList)).filter Char.isDigit).length = 0 ∧
      normalize_soc_code "abcdef" = "ab-cdef" ∧ normalize_soc_code "abcdef" ≠ "abcdef" :=
  ⟨by decide, by decide, by decide⟩

/-- C4 (amended): `_normalize_soc_code` returns the hyphenated form
built from the first six remaining characters exactly when at least 6
characters of any kind (not necessarily digits) remain after stripping
hyphens, dots and surrounding whitespace; otherwise it returns the input
unchanged. The three concrete examples of the claim hold. -/
theorem c4_normalize_shape_amended (s : String) :
    (6 ≤ (pyStrip (socFilter s.toList)).length →
      normalize_soc_code s =
        String.mk ((pyStrip (socFilter s.toList)).take 2 ++
          '-' :: ((pyStrip (socFilter s.toList)).drop 2).take 4)) ∧
    ((pyStrip (socFilter s.toList)).length < 6 → normalize_soc_code s = s) ∧
    normalize_soc_code "151252" = "15-1252" ∧
    normalize_soc_code "15-1252.00" = "15-1252" ∧
    normalize_soc_code "ab" = "ab" := by
  refine ⟨fun h6 => ?_, fun hlt => ?_, by decide, by decide, by decide⟩
  · rw [normalize_soc_code, normalizeSocList_eq, if_pos h6]
  · rw [normalize_soc_code, normalizeSocList_eq, if_neg (by omega)]
    cases s
    rfl

/-- C4 witness: the amended theorem applied at `"151252"` and `"ab"`. -/
theorem c4_normalize_shape_amended_witness :
    6 ≤ (pyStrip (socFilter "151252".toList)).length ∧
      normalize_soc_code "151252" =
        String.mk ((pyStrip (socFilter "151252".toList)).take 2 ++
          '-' :: ((pyStrip (socFilter "151252".toList)).drop 2).take 4) ∧
      (pyStrip (socFilter "ab".toList)).length < 6 ∧ normalize_soc_code "ab" = "ab" :=
  ⟨by decide, (c4_normalize_shape_amended "151252").1 (by decide), by decide,
    (c4_normalize_shape_amended "ab").2.1 (by decide)⟩

/-- C8: on every input — in particular every valid 6+-digit code written
with hyphens, dots, or stray whitespace — `_normalize_soc_code` is
idempotent. -/
theorem c8_normalize_idempotent (s : String)
    (hstyle : ∀ c ∈ s.toList, c.isDigit ∨ c = '-' ∨ c = '.' ∨ c.isWhitespace)
    (hdigits : 6 ≤ (s.toList.filter Char.isDigit).length) :
    normalize_soc_code (normalize_soc_code s) = normalize_soc_code s := by
  show String.mk (normalizeSocList (normalizeSocList s.toList)) =
    String.mk (normalizeSocList s.toList)
  rw [normalizeSocList_idem]

/-- C8 witness: idempotence at the dotted/versioned code `"15-1252.00"`. -/
theorem c8_normalize_idempotent_witness :
    (∀ c ∈ "15-1252.00".toList, c.isDigit ∨ c = '-' ∨ c = '.' ∨ c.isWhitespace) ∧
      6 ≤ ("15-1252.00".toList.filter Char.isDigit).length ∧
      normalize_soc_code (normalize_soc_code "15-1252.00") = normalize_soc_code "15-1252.00" :=
  ⟨by decide, by decide, c8_normalize_idempotent "15-1252.00" (by decide) (by decide)⟩

/-- C5: `_safe_float` and `_safe_int` map each suppression marker, `None`
and NaN to the declared default (for every default, in particular 0), and
parse `"1234.5"` to the number 1234.5; being total functions they never
raise. -/
theorem c5_sentinel_coercion :
    (∀ d : ℚ, safe_float (.str "*") d = d ∧ safe_float (.str "**") d = d ∧
      safe_float (.str "#") d = d ∧ safe_float .none d = d ∧ safe_float .nan d = d) ∧
    (∀ d : ℤ, safe_int (.str "*") d = d ∧ safe_int (.str "**") d = d ∧
      safe_int (.str "#") d = d ∧ safe_int .none d = d ∧ safe_int .nan d = d) ∧
    safe_float (.str "1234.5") 0 = 1234.5 := by
  refine ⟨fun d => ⟨rfl, rfl, rfl, rfl, rfl⟩, fun d => ⟨rfl, rfl, rfl, rfl, rfl⟩, ?_⟩
  have h : pyParseFloat "1234.5" = some (((1234 : ℕ) : ℚ) + ((5 : ℕ) : ℚ) / (10 : ℚ) ^ 1) := rfl
  simp [safe_float, isSuppressionMarker, h]
  norm_num

/-- If a string parses as a decimal number it is not a suppression marker. -/
lemma not_marker_of_parse {s : String} {q : ℚ} (h : pyParseFloat s = some q) :
    isSuppressionMarker s = false := by
  by_cases h1 : s = "*"
  · subst h1
    simp [show pyParseFloat "*" = (Option.none : Option ℚ) from rfl] at h
  by_cases h2 : s = "**"
  · subst h2
    simp [show pyParseFloat "**" = (Option.none : Option ℚ) from rfl] at h
  by_cases h3 : s = "#"
  · subst h3
    simp [show pyParseFloat "#" = (Option.none : Option ℚ) from rfl] at h
  simp [isSuppressionMarker, h1, h2, h3]

/-- C10: `_safe_int` parses a decimal string through `float` and then
truncates toward zero (floor for nonnegative values, ceiling for negative
ones); in particular `"1234.9"` converts to 1234 and `"-1234.9"` to
-1234. -/
theorem c10_safe_int_truncates
    (s : String) (q : ℚ) (d : ℤ) (h : pyParseFloat s = some q) :
    safe_int (.str s) d = truncToward0 q ∧
      truncToward0 q = (if 0 ≤ q then ⌊q⌋ else ⌈q⌉) ∧
      safe_int (.str "1234.9") 0 = 1234 ∧ safe_int (.str "-1234.9") 0 = -1234 := by
  refine ⟨?_, rfl, ?_, ?_⟩
  · simp [safe_int, not_marker_of_parse h, h]
  · have h9 : pyParseFloat "1234.9" =
        some (((1234 : ℕ) : ℚ) + ((9 : ℕ) : ℚ) / (10 : ℚ) ^ 1) := rfl
    simp [safe_int, isSuppressionMarker, h9, truncToward0]
    norm_num
  · have h9 : pyParseFloat "-1234.9" =
        some (-(((1234 : ℕ) : ℚ) + ((9 : ℕ) : ℚ) / (10 : ℚ) ^ 1)) := rfl
    simp [safe_int, isSuppressionMarker, h9, truncToward0]
    rw [if_neg (by norm_num), Int.ceil_eq_iff] <;> norm_num

/-- C10 witness: the truncation theorem applied at the string `"2.5"`. -/
theorem c10_safe_int_truncates_witness :
    pyParseFloat "2.5" = some (((2 : ℕ) : ℚ) + ((5 : ℕ) : ℚ) / (10 : ℚ) ^ 1) ∧
      safe_int (.str "2.5") 0 =
        truncToward0 (((2 : ℕ) : ℚ) + ((5 : ℕ) : ℚ) / (10 : ℚ) ^ 1) :=
  ⟨rfl, (c10_safe_int_truncates "2.5" _ 0 rfl).1⟩

/-! ### Skill aggregation lemmas and claims -/

lemma bucketEntries_length (sid code : String) (d : OccupationDetails) :
    (bucketEntries sid code d).length = matchCount sid d := by
  simp [bucketEntries, matchCount]
  omega

lemma skillBucket_length (sid : String) (data : List (String × OccupationDetails))
    (honce : ∀ p ∈ data, matchCount sid p.2 ≤ 1) :
    (skillBucket sid data).length =
      (data.filter (fun p => decide (0 < matchCount sid p.2))).length := by
  induction data with
  | nil => rfl
  | cons p rest ih =>
      obtain ⟨code, d⟩ := p
      have h1 : matchCount sid d ≤ 1 := honce _ (List.mem_cons_self _ _)
      have ih' := ih (fun q hq => honce q (List.mem_cons_of_mem _ hq))
      simp only [skillBucket, List.length_append, bucketEntries_length, ih', List.filter_cons]
      by_cases hz : 0 < matchCount sid d
      · rw [if_pos (by simpa using hz)]
        simp
        omega
      · rw [if_neg (by simpa using hz)]
        omega

/-- C2: for every skill id and every profile map in which each profile
carries that id at most once (taxonomy ids are unique within a profile)
and occupation codes are distinct (they are dict keys), the aggregate
document's `occupation_count` is the number of occupations contributing
the skill, while the stored `related_occupations` list is the bucket
truncated to 50 entries. -/
theorem c2_occupation_count_true_count (sid nm ty ds : String) (now : ℤ)
    (data : List (String × OccupationDetails))
    (hnodup : (data.map Prod.fst).Nodup)
    (honce : ∀ p ∈ data, matchCount sid p.2 ≤ 1) :
    (transform_skill_document sid nm ty ds (skillBucket sid data) now).occupation_count =
      (data.filter (fun p => decide (0 < matchCount sid p.2))).length ∧
    (transform_skill_document sid nm ty ds (skillBucket sid data) now).related_occupations =
      (skillBucket sid data).take 50 :=
  ⟨skillBucket_length sid data honce, rfl⟩

/-- One synthetic competency profile contributing the skill `2.A.1.a`
exactly once. -/
def demoProfile (n : Nat) : String × OccupationDetails :=
  ("15-" ++ toString (1000 + n),
   { code := "15-" ++ toString (1000 + n), title := "t", description := "", job_zone := 1,
     skills := [{ id := "2.A.1.a", name := "x", description := "", importance := 3,
                  level := some 3, category := "skill" }],
     knowledge := [], abilities := [], technology_skills := [], tasks := [],
     education := Option.none, bright_outlook := false })

/-- 75 distinct synthetic profiles, each contributing `2.A.1.a` once. -/
def profiles75 : List (String × OccupationDetails) := (List.range 75).map demoProfile

/-- C2 witness: 75 contributing occupations give `occupation_count = 75`
with a 50-entry stored list. -/
theorem c2_occupation_count_true_count_witness :
    (profiles75.map Prod.fst).Nodup ∧
      (∀ p ∈ profiles75, matchCount "2.A.1.a" p.2 ≤ 1) ∧
      (transform_skill_document "2.A.1.a" "x" "skill" ""
        (skillBucket "2.A.1.a" profiles75) 0).occupation_count = 75 ∧
      (transform_skill_document "2.A.1.a" "x" "skill" ""
        (skillBucket "2.A.1.a" profiles75) 0).related_occupations.length = 50 := by
  have h := c2_occupation_count_true_count "2.A.1.a" "x" "skill" "" 0 profiles75
    (by decide) (by decide)
  refine ⟨by decide, by decide, ?_, ?_⟩
  · rw [h.1]
    decide
  · rw [h.2]
    rfl

/-- C6 counterexample: with recorded importances 4, 2 and 1 the stored
`avg_importance` is 2.33 — the two-decimal rounding of the mean — and not
the arithmetic mean 7/3 itself, so the claim as stated fails. -/
theorem c6_avg_importance_counterexample :
    (transform_skill_document "2.A.1.a" "n" "skill" "d"
        [⟨"11-1011", "t1", 4, some 1⟩, ⟨"13-1011", "t2", 2, some 1⟩,
         ⟨"15-1252", "t3", 1, some 1⟩] 0).avg_importance = 233/100 ∧
      (233 : ℚ)/100 ≠ (4 + 2 + 1)/3 := by
  constructor
  · simp [transform_skill_document, round2, roundHalfEven, levelTruthy]
    norm_num [Int.fract]
  · norm_num

/-- The synthetic tabular row of the spec's end-to-end example:
`OCC_CODE="151252", OCC_TITLE="Test Analysts", TOT_EMP=1000,
A_MEDIAN=75000`, all other columns absent. -/
def exampleRow : String → PyVal := fun k =>
  if k = "OCC_CODE" then .str "151252"
  else if k = "OCC_TITLE" then .str "Test Analysts"
  else if k = "TOT_EMP" then .num 1000
  else if k = "A_MEDIAN" then .num 75000
  else .none

/-- C1 counterexample: with no competency profile, the returned document
has no `skills`, `knowledge_areas` or `abilities` key at all — the lookup
yields `none`, not an empty array — even though the wage fields are
populated. -/
theorem c1_no_profile_fields_absent_counterexample :
    dictGet (transform_occupation exampleRow Option.none 0) "skills" = Option.none ∧
      dictGet (transform_occupation exampleRow Option.none 0) "knowledge_areas" = Option.none ∧
      dictGet (transform_occupation exampleRow Option.none 0) "abilities" = Option.none ∧
      dictGet (transform_occupation exampleRow Option.none 0) "national_median_wage" =
        some (.vnum 75000) ∧
      dictGet (transform_occupation exampleRow Option.none 0) "national_employment" =
        some (.vint 1000) :=
  ⟨rfl, rfl, rfl, rfl, rfl⟩

/-- C1 (amended): for every tabular row, `transform_occupation` with no
competency profile returns (it is a total function, so it never raises) a
document whose wage and employment fields are populated from the row
through the sentinel-tolerant coercions, and which contains no
`skills`, `knowledge_areas` or `abilities` field at all — the competency
keys are absent rather than present as empty arrays. -/
theorem c1_no_profile_wage_only_amended (row : String → PyVal) (now : ℤ) :
    dictGet (transform_occupation row Option.none now) "national_employment" =
        some (.vint (safe_int (row "TOT_EMP") 0)) ∧
      dictGet (transform_occupation row Option.none now) "national_mean_wage" =
        some (.vnum (safe_float (row "A_MEAN") 0)) ∧
      dictGet (transform_occupation row Option.none now) "national_median_wage" =
        some (.vnum (safe_float (row "A_MEDIAN") 0)) ∧
      dictGet (transform_occupation row Option.none now) "hourly_mean_wage" =
        some (.vnum (safe_float (row "H_MEAN") 0)) ∧
      dictGet (transform_occupation row Option.none now) "hourly_median_wage" =
        some (.vnum (safe_float (row "H_MEDIAN") 0)) ∧
      dictGet (transform_occupation row Option.none now) "wage_pct_10" =
        some (.vnum (safe_float (row "A_PCT10") 0)) ∧
      dictGet (transform_occupation row Option.none now) "wage_pct_25" =
        some (.vnum (safe_float (row "A_PCT25") 0)) ∧
      dictGet (transform_occupation row Option.none now) "wage_pct_75" =
        some (.vnum (safe_float (row "A_PCT75") 0)) ∧
      dictGet (transform_occupation row Option.none now) "wage_pct_90" =
        some (.vnum (safe_float (row "A_PCT90") 0)) ∧
      dictGet (transform_occupation row Option.none now) "hourly_pct_10" =
        some (.vnum (safe_float (row "H_PCT10") 0)) ∧
      dictGet (transform_occupation row Option.none now) "hourly_pct_25" =
        some (.vnum (safe_float (row "H_PCT25") 0)) ∧
      dictGet (transform_occupation row Option.none now) "hourly_pct_75" =
        some (.vnum (safe_float (row "H_PCT75") 0)) ∧
      dictGet (transform_occupation row Option.none now) "hourly_pct_90" =
        some (.vnum (safe_float (row "H_PCT90") 0)) ∧
      dictGet (transform_occupation row Option.none now) "skills" = Option.none ∧
      dictGet (transform_occupation row Option.none now) "knowledge_areas" = Option.none ∧
      dictGet (transform_occupation row Option.none now) "abilities" = Option.none :=
  ⟨rfl, rfl, rfl, rfl, rfl, rfl, rfl, rfl, rfl, rfl, rfl, rfl, rfl, rfl, rfl, rfl⟩

/-- C6 (amended): `avg_importance` (and likewise `avg_level`) is the
arithmetic mean over only the occupations whose recorded value for that
field is non-zero/non-absent (absent values are excluded, not treated as
zero), *rounded to two decimal places*; importances 4, absent, 2 average
to exactly 3.0. -/
theorem c6_avg_excludes_absent_amended (sid nm ty ds : String) (now : ℤ)
    (ro : List RelatedOccupation) :
    ((transform_skill_document sid nm ty ds ro now).avg_importance =
      round2 (if ((ro.filter (fun o => decide (o.importance ≠ 0))).map
            (fun o => o.importance)).isEmpty then 0
        else ((ro.filter (fun o => decide (o.importance ≠ 0))).map (fun o => o.importance)).sum /
          ((ro.filter (fun o => decide (o.importance ≠ 0))).map (fun o => o.importance)).length)) ∧
    ((transform_skill_document sid nm ty ds ro now).avg_level =
      round2 (if ((ro.filter (fun o => levelTruthy o.level)).map
            (fun o => o.level.getD 0)).isEmpty then 0
        else ((ro.filter (fun o => levelTruthy o.level)).map (fun o => o.level.getD 0)).sum /
          ((ro.filter (fun o => levelTruthy o.level)).map (fun o => o.level.getD 0)).length)) ∧
    (transform_skill_document "2.A.1.a" "n" "skill" "d"
        [⟨"11-1011", "t1", 4, Option.none⟩, ⟨"13-1011", "t2", 0, Option.none⟩,
         ⟨"15-1252", "t3", 2, Option.none⟩] 0).avg_importance = 3 := by
  refine ⟨rfl, rfl, ?_⟩
  simp [transform_skill_document, round2, roundHalfEven, levelTruthy]
  norm_num [Int.fract]

/-! ### Orchestrator: location-wage stage and incremental update -/

/-- The result dict returned by `_load_state_wages` / `_load_metro_wages`. -/
structure LoadStageResult where
  success : ℕ
  failed : ℕ
  error : Option String
deriving DecidableEq, Repr

/-- `OccupationalDataPipeline._load_state_wages`: the whole
extract/transform/load computation runs inside a `try`; a success
returns the index tally, a raised exception is caught and converted to a
zero-success result carrying the error message. -/
def load_state_wages (run : Except String (ℕ × ℕ)) : LoadStageResult :=
  match run with
  | .ok (s, f) => { success := s, failed := f, error := Option.none }
  | .error e => { success := 0, failed := 0, error := some e }

/-- `OccupationalDataPipeline._load_metro_wages`: same catch-and-report
structure as the state load, over the metro data. -/
def load_metro_wages (run : Except String (ℕ × ℕ)) : LoadStageResult :=
  match run with
  | .ok (s, f) => { success := s, failed := f, error := Option.none }
  | .error e => { success := 0, failed := 0, error := some e }

/-- The location-wage stage of `run_full_refresh` (state load then metro
load), sequenced in the exception monad: an exception escaping either
helper would abort the stage. -/
def location_wage_stage (stateRun metroRun : Except String (ℕ × ℕ)) :
    Except String (LoadStageResult × LoadStageResult) := do
  let s := load_state_wages stateRun
  let m := load_metro_wages metroRun
  return (s, m)

/-- C7: the state and metro loads are independent: the stage never
propagates an exception, a failing load yields a zero-success result with
the error attached, and the other load's result is unaffected by the
failure. -/
theorem c7_location_wage_loads_independent
    (stateRun metroRun : Except String (ℕ × ℕ)) (e : String) :
    location_wage_stage stateRun metroRun =
        .ok (load_state_wages stateRun, load_metro_wages metroRun) ∧
      load_state_wages (.error e) = { success := 0, failed := 0, error := some e } ∧
      load_metro_wages (.error e) = { success := 0, failed := 0, error := some e } ∧
      location_wage_stage (.error e) metroRun =
        .ok ({ success := 0, failed := 0, error := some e }, load_metro_wages metroRun) ∧
      location_wage_stage stateRun (.error e) =
        .ok (load_state_wages stateRun, { success := 0, failed := 0, error := some e }) :=
  ⟨rfl, rfl, rfl, rfl, rfl⟩

/-- The counters and issued upserts of
`OccupationalDataPipeline.update_onet_data`. -/
structure UpdateResult where
  updated : ℕ
  failed : ℕ
  upserted : List String
deriving DecidableEq, Repr

/-- `OccupationalDataPipeline.update_onet_data`: for each requested code
the fetch / `get_document` / upsert sequence either raises (`error` —
caught, failed counter incremented), finds no stored document
(`ok none` — nothing happens), or merges and upserts (`ok (some ())` —
updated counter incremented). -/
def update_onet_data (outcome : String → Except String (Option Unit)) :
    List String → UpdateResult
  | [] => { updated := 0, failed := 0, upserted := [] }
  | code :: rest =>
      let r := update_onet_data outcome rest
      match outcome code with
      | .ok (some _) =>
          { updated := r.updated + 1, failed := r.failed, upserted := code :: r.upserted }
      | .ok Option.none => r
      | .error _ => { updated := r.updated, failed := r.failed + 1, upserted := r.upserted }

/-- Whether the per-code outcome leads to an upsert. -/
def outcomeUpserts (o : Except String (Option Unit)) : Bool :=
  match o with
  | .ok (some _) => true
  | _ => false

/-- Whether the per-code outcome is the silent skip: fetch fine, stored
document absent. -/
def outcomeSkips (o : Except String (Option Unit)) : Bool :=
  match o with
  | .ok Option.none => true
  | _ => false

/-- C9: a requested code whose fetch succeeds but whose document is
absent from the collection is silently skipped: no upsert is issued and
neither counter moves, so `updated + failed` counts only the
non-skipped codes and can be strictly less than the number of requested
codes. -/
theorem c9_absent_document_skipped (outcome : String → Except String (Option Unit))
    (codes : List String) (c : String) (hc : outcome c = .ok Option.none) :
    (update_onet_data outcome codes).updated + (update_onet_data outcome codes).failed =
        (codes.filter (fun x => !(outcomeSkips (outcome x)))).length ∧
      (update_onet_data outcome codes).upserted =
        codes.filter (fun x => outcomeUpserts (outcome x)) ∧
      update_onet_data outcome (c :: codes) = update_onet_data outcome codes := by
  refine ⟨?_, ?_, ?_⟩
  · induction codes with
    | nil => rfl
    | cons x rest ih =>
        rcases ho : outcome x with e | v
        · have hcons : List.filter (fun y => !(outcomeSkips (outcome y))) (x :: rest)
              = x :: List.filter (fun y => !(outcomeSkips (outcome y))) rest :=
            List.filter_cons_of_pos (by rw [ho]; rfl)
          simp [update_onet_data, ho, hcons]
          omega
        · rcases v with _ | u
          · have hcons : List.filter (fun y => !(outcomeSkips (outcome y))) (x :: rest)
                = List.filter (fun y => !(outcomeSkips (outcome y))) rest :=
              List.filter_cons_of_neg (by rw [ho]; decide)
            simp only [update_onet_data, ho, hcons]
            exact ih
          · have hcons : List.filter (fun y => !(outcomeSkips (outcome y))) (x :: rest)
                = x :: List.filter (fun y => !(outcomeSkips (outcome y))) rest :=
              List.filter_cons_of_pos (by rw [ho]; rfl)
            simp [update_onet_data, ho, hcons]
            omega
  · induction codes with
    | nil => rfl
    | cons x rest ih =>
        rcases ho : outcome x with e | v
        · have hcons : List.filter (fun y => outcomeUpserts (outcome y)) (x :: rest)
              = List.filter (fun y => outcomeUpserts (outcome y)) rest :=
            List.filter_cons_of_neg (by rw [ho]; simp [outcomeUpserts])
          simp only [update_onet_data, ho, hcons]
          exact ih
        · rcases v with _ | u
          · have hcons : List.filter (fun y => outcomeUpserts (outcome y)) (x :: rest)
                = List.filter (fun y => outcomeUpserts (outcome y)) rest :=
              List.filter_cons_of_neg (by rw [ho]; decide)
            simp only [update_onet_data, ho, hcons]
            exact ih
          · have hcons : List.filter (fun y => outcomeUpserts (outcome y)) (x :: rest)
                = x :: List.filter (fun y => outcomeUpserts (outcome y)) rest :=
              List.filter_cons_of_pos (by rw [ho]; rfl)
            simp [update_onet_data, ho, hcons]
            exact ih
  · simp only [update_onet_data, hc]

/-! ### Load coordinator: batching and partial-failure accounting -/

/-- Result of one chunk-level `import_` call of the store: per-item
success flags, or a raised exception. -/
abbrev ImportOutcome := Except String (List Bool)

/-- The number of iterations of `range(0, n, bs)`: the number of batches
`TypesenseLoader.index_documents` issues for `n` documents. -/
def numBatches (bs n : ℕ) : ℕ := (n + bs - 1) / bs

/-- The batches `documents[i : i + batch_size]` for
`i = 0, bs, 2*bs, ...` as in the loop of `index_documents`. -/
def chunkBatches {α : Type} (bs : ℕ) (docs : List α) : List (List α) :=
  (List.range (numBatches bs docs.length)).map (fun i => (docs.drop (i * bs)).take bs)

/-- The success/failed tally one chunk contributes: per-item counting on
a per-item result list, the whole chunk counted failed when the
chunk-level call raised. -/
def chunkTally {α : Type} (store : List α → ImportOutcome) (batch : List α) : ℕ × ℕ :=
  match store batch with
  | .ok results =>
      ((results.filter (fun r => r)).length, (results.filter (fun r => !r)).length)
  | .error _ => (0, batch.length)

/-- `TypesenseLoader.index_documents`: iterate the batches; a chunk whose
`import_` call returns per-item results contributes per-document success
and failure counts, a chunk whose call raises adds the whole chunk to the
failed count, and iteration continues either way. -/
def index_documents {α : Type} (store : List α → ImportOutcome) (docs : List α)
    (bs : ℕ) : ℕ × ℕ :=
  (chunkBatches bs docs).foldl
    (fun acc batch =>
      match store batch with
      | .ok results =>
          (acc.1 + (results.filter (fun r => r)).length,
           acc.2 + (results.filter (fun r => !r)).length)
      | .error _ => (acc.1, acc.2 + batch.length))
    (0, 0)

/-- Componentwise sum of success/failed pairs. -/
def tallySum (l : List (ℕ × ℕ)) : ℕ × ℕ :=
  l.foldl (fun a b => (a.1 + b.1, a.2 + b.2)) (0, 0)

lemma le_numBatches_mul (bs n : ℕ) (hbs : 0 < bs) : n ≤ numBatches bs n * bs := by
  unfold numBatches
  have h := Nat.div_add_mod (n + bs - 1) bs
  have hr : (n + bs - 1) % bs < bs := Nat.mod_lt _ hbs
  rw [Nat.mul_comm]
  omega

lemma drop_take_chunks_flatten {α : Type} (bs : ℕ) (hbs : 0 < bs) :
    ∀ (n : ℕ) (docs : List α), docs.length ≤ n * bs →
      ((List.range n).map (fun i => (docs.drop (i * bs)).take bs)).flatten = docs := by
  intro n
  induction n with
  | zero =>
      intro docs hlen
      simp only [Nat.zero_mul, Nat.le_zero] at hlen
      simp [List.length_eq_zero.mp hlen]
  | succ m ih =>
      intro docs hlen
      rw [List.range_succ_eq_map]
      simp only [List.map_cons, List.map_map, List.flatten_cons, Nat.zero_mul, List.drop_zero]
      have hfun : ((fun i => (docs.drop (i * bs)).take bs) ∘ Nat.succ)
          = (fun i => ((docs.drop bs).drop (i * bs)).take bs) := by
        funext i
        simp only [Function.comp]
        rw [List.drop_drop, Nat.succ_mul, Nat.add_comm]
      rw [hfun]
      rw [ih (docs.drop bs) (by
        rw [List.length_drop]
        rw [Nat.succ_mul] at hlen
        omega)]
      exact List.take_append_drop bs docs

lemma foldl_pair_add {β : Type} (f : β → ℕ × ℕ) (l : List β) :
    ∀ acc : ℕ × ℕ,
      l.foldl (fun a b => (a.1 + (f b).1, a.2 + (f b).2)) acc
        = (acc.1 + (tallySum (l.map f)).1, acc.2 + (tallySum (l.map f)).2) := by
  induction l with
  | nil => intro acc; simp [tallySum]
  | cons p rest ih =>
      intro acc
      have hhead : tallySum (l := (f p :: rest.map f)) =
          ((f p).1 + (tallySum (rest.map f)).1, (f p).2 + (tallySum (rest.map f)).2) := by
        have hshift : ∀ (l : List (ℕ × ℕ)) (a : ℕ × ℕ),
            l.foldl (fun a b => (a.1 + b.1, a.2 + b.2)) a
              = (a.1 + (tallySum l).1, a.2 + (tallySum l).2) := by
          intro l
          induction l with
          | nil => intro a; simp [tallySum]
          | cons q qs ihq =>
              intro a
              show qs.foldl _ (a.1 + q.1, a.2 + q.2) = _
              rw [ihq]
              have h2 : tallySum (q :: qs) = ((0 + q.1) + (tallySum qs).1,
                  (0 + q.2) + (tallySum qs).2) := by
                show qs.foldl _ ((0 : ℕ) + q.1, (0 : ℕ) + q.2) = _
                rw [ihq]
              rw [h2]
              simp only [Prod.mk.injEq]
              omega
        have := hshift (rest.map f) (f p)
        show (rest.map f).foldl _ ((0 : ℕ) + (f p).1, (0 : ℕ) + (f p).2) = _
        rw [hshift]
        simp only [Prod.mk.injEq]
        omega
      show rest.foldl _ (acc.1 + (f p).1, acc.2 + (f p).2) = _
      rw [ih, List.map_cons, hhead]
      simp only [Prod.mk.injEq]
      omega

/-- C3: for every store, document list and positive batch size, the
chunks partition the documents consecutively with each chunk at most
`batch_size` long, and the final tally is the sum over chunks of the
per-chunk tally — per-item counting when the store returns per-item
results, the whole chunk counted failed when the chunk-level call
raises, with every chunk attempted regardless of earlier failures. -/
theorem c3_index_documents_batching {α : Type} (store : List α → ImportOutcome)
    (docs : List α) (bs : ℕ) (hbs : 0 < bs) :
    (chunkBatches bs docs).flatten = docs ∧
      (∀ b ∈ chunkBatches bs docs, b.length ≤ bs) ∧
      index_documents store docs bs =
        tallySum ((chunkBatches bs docs).map (chunkTally store)) := by
  refine ⟨?_, ?_, ?_⟩
  · exact drop_take_chunks_flatten bs hbs _ docs (le_numBatches_mul bs docs.length hbs)
  · intro b hb
    rcases List.mem_map.mp hb with ⟨i, hi, rfl⟩
    exact List.length_take_le bs _
  · have hstep : (fun (acc : ℕ × ℕ) (batch : List α) =>
        match store batch with
        | .ok results =>
            (acc.1 + (results.filter (fun r => r)).length,
             acc.2 + (results.filter (fun r => !r)).length)
        | .error _ => (acc.1, acc.2 + batch.length))
        = (fun (acc : ℕ × ℕ) (batch : List α) =>
            (acc.1 + (chunkTally store batch).1, acc.2 + (chunkTally store batch).2)) := by
      funext acc batch
      unfold chunkTally
      rcases store batch with e | results <;> rfl
    unfold index_documents
    rw [hstep, foldl_pair_add]
    simp

/-- 250 synthetic documents. -/
def docs250 : List ℕ := List.range 250

/-- A store whose chunk-level call raises exactly on the second chunk
(the one starting at document 100) and reports per-item success on every
other chunk. -/
def store250 : List ℕ → ImportOutcome := fun batch =>
  if batch.head? = some 100 then .error "connection reset"
  else .ok (batch.map (fun _ => true))

set_option maxRecDepth 4000 in
/-- C3 witness: 250 documents at batch size 100 give exactly chunks of
100, 100 and 50; with the second chunk raising, the tally is 150
succeeded (chunks 1 and 3) and 100 failed (all of chunk 2). -/
theorem c3_index_documents_batching_witness :
    0 < 100 ∧
      (chunkBatches 100 docs250).map List.length = [100, 100, 50] ∧
      index_documents store250 docs250 100 = (150, 100) ∧
      index_documents store250 docs250 100 =
        tallySum ((chunkBatches 100 docs250).map (chunkTally store250)) :=
  ⟨by decide, by decide, by decide,
    (c3_index_documents_batching store250 docs250 100 (by decide)).2.2⟩

/-- A store in which every fetch succeeds but no document exists. -/
def allAbsentOutcome : String → Except String (Option Unit) := fun _ => .ok Option.none

/-- C9 witness: one requested code, fetch fine, document absent — both
counters stay 0 and their sum is strictly below the one requested code. -/
theorem c9_absent_document_skipped_witness :
    allAbsentOutcome "15-1252" = .ok Option.none ∧
      update_onet_data allAbsentOutcome ["15-1252"] = update_onet_data allAbsentOutcome [] ∧
      (update_onet_data allAbsentOutcome ["15-1252"]).updated +
          (update_onet_data allAbsentOutcome ["15-1252"]).failed <
        (["15-1252"] : List String).length :=
  ⟨rfl, (c9_absent_document_skipped allAbsentOutcome [] "15-1252" rfl).2.2, by decide⟩

end JobTracker
